import Mathlib

/-
Verification of the SemNotes resilient data-access layer.

The development shallowly embeds the client-side data-access code of the
repository: the two concatenated revisions of `src/lib/database-fixed.ts`
(namespaces `DF1` for the first document, lines 1-229, and `DF2` for the
second document, lines 230-462), the supabase utility module containing
`fetchStudentProfile`, `createOrUpdateStudentProfile` and
`fetchSubjectsForStudent`, and the emergency-mode logic of
`src/pages/Home.tsx`.

Asynchronous backend calls are modelled by explicit outcome parameters
(oracles): each network attempt is given its outcome (transport error,
thrown exception, or success) as an input, and query results are computed
from an explicit backend table by the filter the source builds.
-/

/-- Student record, mirroring the `Student` interface of `src/lib/types.ts`. -/
structure Student where
  id : String
  full_name : String
  email : String
  academic_year : Nat
  semester : Nat
  branch : String
  is_admin : Bool
  created_at : String
deriving DecidableEq, Repr

/-- Subject record, mirroring the `Subject` interface of `src/lib/types.ts`. -/
structure Subject where
  id : String
  name : String
  branch : String
  academic_year : Nat
  semester : Nat
  is_common : Bool
  created_at : String
deriving DecidableEq, Repr

/-- Bookmark record, mirroring the `Bookmark` interface of
`database-fixed.ts`: the two foreign keys `note_id` and `subject_id` are
optional (`string | undefined` becomes `Option String`). -/
structure Bookmark where
  id : String
  user_id : String
  note_id : Option String
  subject_id : Option String
  created_at : String
deriving DecidableEq, Repr

/-- Truthiness of an optional string in JavaScript: `undefined` and the
empty string are falsy, every other string is truthy. -/
def optTruthy : Option String → Bool
  | none => false
  | some s => !(s == "")

namespace DF1

/-- First revision of `isBookmarked` (database-fixed.ts lines 46-56):
returns whether some bookmark satisfies
`(bookmark.subject_id && bookmark.subject_id === id) ||
 (bookmark.note_id && bookmark.note_id === id)`.
The early return for a null/empty list coincides with `List.any` on `[]`. -/
def isBookmarked (bookmarks : List Bookmark) (id : String) : Bool :=
  bookmarks.any fun b =>
    (optTruthy b.subject_id && b.subject_id == some id) ||
    (optTruthy b.note_id && b.note_id == some id)

end DF1

namespace DF2

/-- Second revision of `isBookmarked` (database-fixed.ts lines 315-319):
`bookmarks?.some(b => (b.note_id === id) || (b.subject_id === id)) || false`.
A missing key (`undefined`) is never `===` to a string id, so the
comparison is equality with `some id`. -/
def isBookmarked (bookmarks : List Bookmark) (id : String) : Bool :=
  bookmarks.any fun b => b.note_id == some id || b.subject_id == some id

end DF2

/-- Outcome of one backend operation: the service answered with a non-null
`error` (carrying its message), the call threw an exception (timeout /
network abort), or it succeeded. -/
inductive OpOutcome where
  | err (msg : String)
  | exc
  | ok
deriving DecidableEq, Repr

/-- Backend operations the bookmark mutation code can issue, recorded so
that theorems can speak about which writes were attempted. -/
inductive DbOp where
  | insertNote (userId itemId : String)
  | insertSubject (userId itemId : String)
  | insertBoth (userId itemId : String)
  | deleteByNote (userId itemId : String)
  | deleteBySubject (userId itemId : String)
  | deleteByOr (userId itemId : String)
deriving DecidableEq, Repr

/-- Result of a bookmark mutation: the returned record plus the trace of
backend operations that were issued. -/
structure MutationResult where
  success : Bool
  message : String
  ops : List DbOp
deriving DecidableEq, Repr

/-- Bookmarks table held by the backend, as a list of rows. -/
abbrev Db : Type := List Bookmark

/-- Row matching for `.delete().eq(user_id).eq(note_id)`. -/
def rowMatchesNote (u i : String) (r : Bookmark) : Bool :=
  r.user_id == u && r.note_id == some i

/-- Row matching for `.delete().eq(user_id).eq(subject_id)`. -/
def rowMatchesSubject (u i : String) (r : Bookmark) : Bool :=
  r.user_id == u && r.subject_id == some i

/-- Row matching for `.delete().or(subject_id.eq.id,note_id.eq.id).eq(user_id)`. -/
def rowMatchesOr (u i : String) (r : Bookmark) : Bool :=
  r.user_id == u && (r.subject_id == some i || r.note_id == some i)

/-- Effect of executing one bookmark operation on the backend table.
Inserts append the payload row (the backend-generated `id` and
`created_at` are supplied as parameters); deletes remove every row
matched by their filters. -/
def applyOp (newId t : String) (db : Db) : DbOp → Db
  | .insertNote u i => db ++ [⟨newId, u, some i, none, t⟩]
  | .insertSubject u i => db ++ [⟨newId, u, none, some i, t⟩]
  | .insertBoth u i => db ++ [⟨newId, u, some i, some i, t⟩]
  | .deleteByNote u i => List.filter (fun r => !(rowMatchesNote u i r)) db
  | .deleteBySubject u i => List.filter (fun r => !(rowMatchesSubject u i r)) db
  | .deleteByOr u i => List.filter (fun r => !(rowMatchesOr u i r)) db

/-- Whether the pair (user, item) is bookmarked in a backend table: some
row belongs to the user and references the item through either key. This
is the notion of bookmark state the UI observes through
`fetchUserBookmarks` + `isBookmarked`. -/
def bookmarkState (db : Db) (u i : String) : Bool :=
  db.any fun r => r.user_id == u && (r.note_id == some i || r.subject_id == some i)

namespace DF1

/-- First revision of `addBookmark` (database-fixed.ts lines 132-170):
guards against missing ids, then issues a single insert carrying both
`note_id` and `subject_id` equal to the given item id. Returns the
result record and the new backend table. -/
def addBookmark (db : Db) (userId itemId : String) (insertRes : OpOutcome)
    (newId t : String) : MutationResult × Db :=
  if userId == "" || itemId == "" then
    (⟨false, "Missing user ID or item ID", []⟩, db)
  else
    match insertRes with
    | .ok =>
        (⟨true, "Bookmark added successfully", [.insertBoth userId itemId]⟩,
         applyOp newId t db (.insertBoth userId itemId))
    | .err m =>
        (⟨false, "Failed to add bookmark: " ++ m, [.insertBoth userId itemId]⟩, db)
    | .exc =>
        (⟨false, "Failed to add bookmark. Please try again later.",
          [.insertBoth userId itemId]⟩, db)

/-- First revision of `removeBookmark` (database-fixed.ts lines 175-229):
guards against missing ids, deletes by `note_id` first and reports
success if that call returns no error; only on an error or exception does
it retry the delete keyed by `subject_id`. -/
def removeBookmark (db : Db) (userId itemId : String)
    (noteRes subjRes : OpOutcome) (newId t : String) : MutationResult × Db :=
  if userId == "" || itemId == "" then
    (⟨false, "Missing user ID or item ID", []⟩, db)
  else
    match noteRes with
    | .ok =>
        (⟨true, "Bookmark removed successfully", [.deleteByNote userId itemId]⟩,
         applyOp newId t db (.deleteByNote userId itemId))
    | _ =>
        match subjRes with
        | .ok =>
            (⟨true, "Bookmark removed successfully",
              [.deleteByNote userId itemId, .deleteBySubject userId itemId]⟩,
             applyOp newId t db (.deleteBySubject userId itemId))
        | .err m =>
            (⟨false, m, [.deleteByNote userId itemId, .deleteBySubject userId itemId]⟩, db)
        | .exc =>
            (⟨false, "Failed to remove bookmark. Please try again.",
              [.deleteByNote userId itemId, .deleteBySubject userId itemId]⟩, db)

/-- First revision of `toggleBookmark` (database-fixed.ts lines 61-127):
when currently bookmarked it deletes with the combined filter
`or(subject_id.eq.id,note_id.eq.id)` restricted to the user; otherwise it
inserts one row with both `note_id` and `subject_id` set to the id. -/
def toggleBookmark (db : Db) (userId id : String) (currentlyBookmarked : Bool)
    (res : OpOutcome) (newId t : String) : MutationResult × Db :=
  if currentlyBookmarked then
    match res with
    | .ok =>
        (⟨true, "Bookmark removed successfully", [.deleteByOr userId id]⟩,
         applyOp newId t db (.deleteByOr userId id))
    | .err m =>
        (⟨false, "Failed to remove bookmark: " ++ m, [.deleteByOr userId id]⟩, db)
    | .exc =>
        (⟨false, "An unexpected error occurred", [.deleteByOr userId id]⟩, db)
  else
    match res with
    | .ok =>
        (⟨true, "Bookmark added successfully", [.insertBoth userId id]⟩,
         applyOp newId t db (.insertBoth userId id))
    | .err m =>
        (⟨false, "Failed to add bookmark: " ++ m, [.insertBoth userId id]⟩, db)
    | .exc =>
        (⟨false, "An unexpected error occurred", [.insertBoth userId id]⟩, db)

end DF1

namespace DF2

/-- Second revision of `addBookmark` (database-fixed.ts lines 324-380):
guards against missing ids, inserts keyed by `note_id` first, and only
when that insert errors or throws does it retry keyed by `subject_id`;
success is reported if either insert succeeds. -/
def addBookmark (db : Db) (userId itemId : String)
    (noteRes subjRes : OpOutcome) (newId t : String) : MutationResult × Db :=
  if userId == "" || itemId == "" then
    (⟨false, "Missing user ID or item ID", []⟩, db)
  else
    match noteRes with
    | .ok =>
        (⟨true, "Bookmark added successfully", [.insertNote userId itemId]⟩,
         applyOp newId t db (.insertNote userId itemId))
    | _ =>
        match subjRes with
        | .ok =>
            (⟨true, "Bookmark added successfully",
              [.insertNote userId itemId, .insertSubject userId itemId]⟩,
             applyOp newId t db (.insertSubject userId itemId))
        | .err m =>
            (⟨false, m, [.insertNote userId itemId, .insertSubject userId itemId]⟩, db)
        | .exc =>
            (⟨false, "Failed to add bookmark. Please try again.",
              [.insertNote userId itemId, .insertSubject userId itemId]⟩, db)

/-- Second revision of `removeBookmark` (database-fixed.ts lines 385-439):
same shape as the first revision, deleting by `note_id` first and falling
back to `subject_id` only on error or exception. -/
def removeBookmark (db : Db) (userId itemId : String)
    (noteRes subjRes : OpOutcome) (newId t : String) : MutationResult × Db :=
  if userId == "" || itemId == "" then
    (⟨false, "Missing user ID or item ID", []⟩, db)
  else
    match noteRes with
    | .ok =>
        (⟨true, "Bookmark removed successfully", [.deleteByNote userId itemId]⟩,
         applyOp newId t db (.deleteByNote userId itemId))
    | _ =>
        match subjRes with
        | .ok =>
            (⟨true, "Bookmark removed successfully",
              [.deleteByNote userId itemId, .deleteBySubject userId itemId]⟩,
             applyOp newId t db (.deleteBySubject userId itemId))
        | .err m =>
            (⟨false, m, [.deleteByNote userId itemId, .deleteBySubject userId itemId]⟩, db)
        | .exc =>
            (⟨false, "Failed to remove bookmark. Please try again.",
              [.deleteByNote userId itemId, .deleteBySubject userId itemId]⟩, db)

/-- Second revision of `toggleBookmark` (database-fixed.ts lines 444-462):
dispatches to `removeBookmark` when currently bookmarked and to
`addBookmark` otherwise, tagging the result with the action taken. -/
def toggleBookmark (db : Db) (userId itemId : String)
    (isCurrentlyBookmarked : Bool) (noteRes subjRes : OpOutcome)
    (newId t : String) : MutationResult × Db :=
  if isCurrentlyBookmarked then
    removeBookmark db userId itemId noteRes subjRes newId t
  else
    addBookmark db userId itemId noteRes subjRes newId t

/-- Settled outcome of one query inside `Promise.allSettled`: the promise
was rejected, or it fulfilled with an error flag and a data list. -/
inductive SettledQuery where
  | rejected
  | fulfilled (hasError : Bool) (rows : List Bookmark)
deriving DecidableEq, Repr

/-- A settled query counts as successful when it fulfilled without error. -/
def SettledQuery.isOk : SettledQuery → Bool
  | .fulfilled false _ => true
  | _ => false

/-- Rows carried by a settled query (empty when rejected). -/
def SettledQuery.data : SettledQuery → List Bookmark
  | .fulfilled _ r => r
  | .rejected => []

/-- Second revision of `fetchUserBookmarks` (database-fixed.ts lines
243-310): runs the `note_id`-shaped and `subject_id`-shaped selects in
parallel; prefers non-empty successful note rows, then non-empty
successful subject rows mapped so that `note_id := subject_id`; returns
the empty list when both queries are empty or both failed. -/
def fetchUserBookmarks (userId : String) (noteQ subjQ : DF2.SettledQuery) :
    List Bookmark :=
  if userId == "" then []
  else if noteQ.isOk && (noteQ.data).length > 0 then noteQ.data
  else if subjQ.isOk && (subjQ.data).length > 0 then
    (subjQ.data).map fun b => { b with note_id := b.subject_id }
  else []

end DF2

/-- Outcome of one fetch attempt inside a retry loop: the service
answered with an error, the attempt threw (timeout abort or other
exception), or it succeeded carrying its payload. -/
inductive FetchOutcome (α : Type) where
  | err
  | exc
  | ok (payload : α)
deriving DecidableEq, Repr

/-- An attempt failed when it did not succeed. -/
def FetchOutcome.failed {α : Type} : FetchOutcome α → Bool
  | .ok _ => false
  | _ => true

/-- Retry bound shared by `fetchStudentProfile` and
`fetchSubjectsForStudent` in supabase-utils (`const maxAttempts = 3`). -/
def maxAttempts : Nat := 3

/-- Backoff delay before a profile-fetch retry (supabase-utils lines 104
and 133): `500 * Math.pow(2, attempt - 1)` milliseconds. -/
def profileBackoffMs (attempt : Nat) : Nat := 500 * 2 ^ (attempt - 1)

/-- Delay before a subjects-fetch retry (supabase-utils lines 278, 304
and 326): `500 * attempt` milliseconds. -/
def subjectsRetryDelayMs (attempt : Nat) : Nat := 500 * attempt

/-- Per-attempt timeout of the profile fetch (supabase-utils line 63):
`5000 + attempt * 1000` milliseconds. -/
def profileTimeoutMs (attempt : Nat) : Nat := 5000 + attempt * 1000

/-- Per-attempt timeout of the subjects fetch (supabase-utils line 241):
`2000 + attempt * 1000` milliseconds. -/
def subjectsTimeoutMs (attempt : Nat) : Nat := 2000 + attempt * 1000

/-- Retry loop of `fetchStudentProfile` (supabase-utils lines 52-137).
`oracle a` is the outcome of attempt number `a`; a successful attempt
returns its payload (the row, or `none` when no profile exists) without
retrying, a failed attempt backs off and retries until the fuel —
initially `maxAttempts` — runs out, after which the function returns
`null`. -/
def fetchProfileAux (oracle : Nat → FetchOutcome (Option Student)) :
    Nat → Nat → Option Student
  | _, 0 => none
  | attempt, fuel + 1 =>
    match oracle (attempt + 1) with
    | .ok d => d
    | _ => fetchProfileAux oracle (attempt + 1) fuel

/-- Model of `fetchStudentProfile` (supabase-utils lines 38-141): returns
`null` for a missing user id, otherwise runs the retry loop with
`maxAttempts` attempts. The initial `testSupabaseConnection` call only
logs and does not change the result, so it is not modelled. -/
def fetchStudentProfile (userId : String)
    (oracle : Nat → FetchOutcome (Option Student)) : Option Student :=
  if userId == "" then none else fetchProfileAux oracle 0 maxAttempts

/-- Model of `createOrUpdateStudentProfile` (supabase-utils lines
146-183): for a present user id it upserts `\x7b id: userId, ...data,
created_at: data.created_at || now \x7d` and returns the upserted row, or
`null` when the upsert errors or throws. -/
def createOrUpdateStudentProfile (userId : String) (data : Student)
    (upsertOk : Bool) (now : String) : Option Student :=
  if userId == "" then none
  else if upsertOk then
    some { data with
           id := userId,
           created_at := if data.created_at == "" then now else data.created_at }
  else none

/-- Filter built by the primary subjects query (supabase-utils lines
248-253): `eq(academic_year).eq(semester).or(branch.eq.b,is_common.eq.true)`. -/
def primaryFilter (y s : Nat) (b : String) (subj : Subject) : Bool :=
  subj.academic_year == y && subj.semester == s &&
    (subj.branch == b || subj.is_common)

/-- Filter built by the permissive fallback query issued on the
penultimate attempt when the primary query returns no rows
(supabase-utils lines 290-293): `or(academic_year.eq.y,is_common.eq.true)` —
the semester and branch restrictions are dropped. -/
def fallbackFilter (y : Nat) (subj : Subject) : Bool :=
  subj.academic_year == y || subj.is_common

/-- Retry loop of `fetchSubjectsForStudent` (supabase-utils lines
230-331). `db` is the backend subjects table; a successful attempt
returns the rows matching the primary filter when they exist; when they
do not, the penultimate attempt (`attempt === maxAttempts - 1`) issues
the permissive fallback query (whose own success is `fallbackOk`) and
returns its rows when non-empty; otherwise the loop retries until the
fuel runs out and returns the empty list. -/
def fetchSubjectsAux (y s : Nat) (b : String) (db : List Subject)
    (oracle : Nat → FetchOutcome Unit) (fallbackOk : Bool) :
    Nat → Nat → List Subject
  | _, 0 => []
  | attempt, fuel + 1 =>
    match oracle (attempt + 1) with
    | .ok _ =>
      let rows := db.filter (primaryFilter y s b)
      if rows.isEmpty then
        let fb :=
          if attempt + 1 == maxAttempts - 1 && fallbackOk then
            db.filter (fallbackFilter y)
          else []
        if !fb.isEmpty then fb
        else fetchSubjectsAux y s b db oracle fallbackOk (attempt + 1) fuel
      else rows
    | _ => fetchSubjectsAux y s b db oracle fallbackOk (attempt + 1) fuel

/-- Model of `fetchSubjectsForStudent` (supabase-utils lines 188-332).
The argument is either a student id (in which case the profile is fetched
first with its own outcome oracle, returning `[]` when that fails) or a
full profile object; the year, semester and branch are read off the
profile and the retry loop runs with `maxAttempts` attempts. -/
def fetchSubjectsForStudent (input : String ⊕ Student)
    (profileOracle : Nat → FetchOutcome (Option Student))
    (db : List Subject) (oracle : Nat → FetchOutcome Unit)
    (fallbackOk : Bool) : List Subject :=
  match input with
  | .inl studentId =>
    match fetchStudentProfile studentId profileOracle with
    | none => []
    | some p =>
      fetchSubjectsAux p.academic_year p.semester p.branch db oracle fallbackOk
        0 maxAttempts
  | .inr p =>
    fetchSubjectsAux p.academic_year p.semester p.branch db oracle fallbackOk
      0 maxAttempts

namespace Home

/-- JavaScript `a || b` on an optional string: falls back when the string
is missing or empty. -/
def orDefault (a : Option String) (b : String) : String :=
  match a with
  | none => b
  | some v => if v == "" then b else v

/-- Local part of an email address, `email.split('@')[0]`. -/
def emailLocalPart (e : String) : String :=
  e.takeWhile fun c => !(c == '@')

/-- Enabled predicate of the `userProfile` query (Home.tsx line 222):
`!!user?.id && !isEmergencyMode`. -/
def userProfileQueryEnabled (hasUser isEmergencyMode : Bool) : Bool :=
  hasUser && !isEmergencyMode

/-- Enabled predicate of the `subjects` query (Home.tsx line 277):
`!!user?.id && !isEmergencyMode`. -/
def subjectsQueryEnabled (hasUser isEmergencyMode : Bool) : Bool :=
  hasUser && !isEmergencyMode

/-- Enabled predicate of the `bookmarks` query (Home.tsx line 297):
`enabled: !!user?.id` — it does not consult the emergency-mode flag. -/
def bookmarksQueryEnabled (hasUser isEmergencyMode : Bool) : Bool :=
  hasUser

/-- Placeholder profile installed by `forceEmergencyMode` (Home.tsx lines
63-72), with the source's fallback chains for id, name and email. -/
def emergencyProfile (uid uname uemail : Option String) (now : String) :
    Student :=
  { id := orDefault uid "emergency-user"
    full_name := orDefault uname
      (orDefault (uemail.map emailLocalPart) "Offline User")
    email := orDefault uemail "offline@example.com"
    academic_year := 1
    semester := 1
    branch := "CSE"
    is_admin := false
    created_at := now }

/-- Placeholder subjects installed by `forceEmergencyMode` (Home.tsx
lines 74-93). -/
def emergencySubjects (now : String) : List Subject :=
  [⟨"offline-subject-1", "Computer Science 101", "CSE", 1, 1, true, now⟩,
   ⟨"offline-subject-2", "Data Structures", "CSE", 1, 1, false, now⟩]

/-- Contents of the UI query cache after `forceEmergencyMode` seeds it. -/
structure EmergencyCache where
  profile : Student
  subjects : List Subject
  bookmarks : List Bookmark
deriving DecidableEq, Repr

/-- Cache seeding performed by `forceEmergencyMode` (Home.tsx lines
95-98): the placeholder profile, the two placeholder subjects, and an
empty bookmark list. -/
def forceEmergencyModeCache (uid uname uemail : Option String)
    (now : String) : EmergencyCache :=
  ⟨emergencyProfile uid uname uemail now, emergencySubjects now, []⟩

/-- Connectivity-relevant state of the home page: the emergency-mode flag
and the number of consecutive connectivity checks that have failed (the
latter is ghost state used to state the activation property; the code
keeps no such counter). -/
structure HomeState where
  isEmergencyMode : Bool
  failedChecks : Nat
deriving DecidableEq, Repr

/-- State on page load: emergency mode off, no failed checks. -/
def initialHomeState : HomeState := ⟨false, 0⟩

/-- Events that drive the emergency-mode flag in Home.tsx. -/
inductive HomeEvent where
  /-- The URL effect observed `?retryAttempt=n` (lines 35-41). -/
  | retryAttemptEffect (n : Nat)
  /-- The page-load effect saw `navigator.onLine === false` (lines 111-117). -/
  | browserOfflineCheck
  /-- The initial `testSupabaseConnection` call failed (lines 120-124);
  activation is deferred to the delayed retry. -/
  | initialTestFail
  /-- The initial connectivity test succeeded (line 143). -/
  | initialTestPass
  /-- The delayed second connectivity test failed (lines 134-137). -/
  | retryTestFail
  /-- The delayed second connectivity test succeeded (line 139). -/
  | retryTestPass
  /-- The browser fired an `offline` event (lines 148-153). -/
  | offlineEvent
  /-- The browser fired an `online` event; the handler only logs and
  deliberately does not exit emergency mode (lines 155-158). -/
  | onlineEvent
  /-- The user pressed the reconnect button: `attemptReconnection`
  reloads the page (lines 44-55), resetting the component state. -/
  | userReconnect
deriving DecidableEq, Repr

/-- Transition function of the home page's connectivity state machine,
transcribed from the effects of Home.tsx. The connectivity-test and
offline branches run inside the effect guarded by `!isEmergencyMode`
(line 109), `forceEmergencyMode` always sets the flag, and nothing but
the user-initiated reload ever clears it. -/
def homeStep (s : HomeState) : HomeEvent → HomeState
  | .retryAttemptEffect n =>
    if n > 3 then { s with isEmergencyMode := true } else s
  | .browserOfflineCheck =>
    if !s.isEmergencyMode then { s with isEmergencyMode := true } else s
  | .initialTestFail =>
    if !s.isEmergencyMode then { s with failedChecks := s.failedChecks + 1 }
    else s
  | .initialTestPass =>
    if !s.isEmergencyMode then { s with failedChecks := 0 } else s
  | .retryTestFail =>
    if !s.isEmergencyMode then
      ⟨true, s.failedChecks + 1⟩
    else s
  | .retryTestPass =>
    if !s.isEmergencyMode then { s with failedChecks := 0 } else s
  | .offlineEvent =>
    if !s.isEmergencyMode then { s with isEmergencyMode := true } else s
  | .onlineEvent => s
  | .userReconnect => initialHomeState

/-- Run of the state machine over a sequence of events. -/
def homeRun (s : HomeState) (events : List HomeEvent) : HomeState :=
  events.foldl homeStep s

end Home

/-- Double invocation of the first revision's `toggleBookmark`: each call
receives the settled bookmark state of the backend table as
`currentlyBookmarked`, and every backend operation succeeds. -/
def DF1.doubleToggleDb (db : Db) (u i n1 t1 n2 t2 : String) : Db :=
  (DF1.toggleBookmark (DF1.toggleBookmark db u i (bookmarkState db u i) .ok n1 t1).2
    u i
    (bookmarkState (DF1.toggleBookmark db u i (bookmarkState db u i) .ok n1 t1).2 u i)
    .ok n2 t2).2

/-- Double invocation of the second revision's `toggleBookmark`, with the
settled bookmark state passed to each call and all backend operations
succeeding. -/
def DF2.doubleToggleDb (db : Db) (u i n1 t1 n2 t2 : String) : Db :=
  (DF2.toggleBookmark (DF2.toggleBookmark db u i (bookmarkState db u i) .ok .ok n1 t1).2
    u i
    (bookmarkState (DF2.toggleBookmark db u i (bookmarkState db u i) .ok .ok n1 t1).2 u i)
    .ok .ok n2 t2).2

/-- A subject of year 1 but semester 2 and branch ECE, not flagged
common: outside the scope the C3 claim allows for a (year 1, semester 1,
CSE) profile. -/
def badSubject : Subject :=
  ⟨"s-bad", "Thermodynamics", "ECE", 1, 2, false, "t0"⟩

/-- Profile data for a year-1 semester-1 CSE student. -/
def csdata : Student :=
  ⟨"ignored", "Alice", "alice@example.com", 1, 1, "CSE", false, "t0"⟩

/-- The profile produced by upserting `csdata` for user `u1`. -/
def csProfile : Student :=
  ⟨"u1", "Alice", "alice@example.com", 1, 1, "CSE", false, "t0"⟩

/-
Theorems settling the claims.
-/

/-- C5 counterexample: the claim says the emergency-mode flag becomes
true only after the configured consecutive-failure threshold of
connectivity checks has been exceeded, but a single browser `offline`
event activates emergency mode from the initial state with zero failed
connectivity checks. -/
theorem emergency_activation_counterexample :
    (Home.homeStep Home.initialHomeState .offlineEvent).isEmergencyMode = true ∧
    (Home.homeStep Home.initialHomeState .offlineEvent).failedChecks = 0 ∧
    Home.initialHomeState.isEmergencyMode = false := by
  decide

/-- Once the emergency flag is set, no event other than the explicit user
reconnect clears it: every branch of `homeStep` either sets the flag or
leaves the state unchanged. -/
lemma homeStep_keeps_emergency (s : Home.HomeState) (e : Home.HomeEvent)
    (hne : e ≠ .userReconnect) (hon : s.isEmergencyMode = true) :
    (Home.homeStep s e).isEmergencyMode = true := by
  cases e <;>
    first
      | (simp only [Home.homeStep]; split <;> simp_all)
      | simp_all [Home.homeStep, Home.initialHomeState]

/-- C5 amended: the emergency-mode flag becomes true only through one of
the code's activation triggers — a URL retry count above 3, the delayed
second connectivity-test failure, the page-load browser-offline check, or
a browser `offline` event (the latter two need no failed connectivity
checks) — and once true it is never cleared by any event other than the
explicit user reconnect action; in particular the `online` event never
deactivates it. -/
theorem emergency_mode_transitions :
    (∀ (s : Home.HomeState) (e : Home.HomeEvent),
      s.isEmergencyMode = false → (Home.homeStep s e).isEmergencyMode = true →
        (∃ n, e = .retryAttemptEffect n ∧ n > 3) ∨
        e = .browserOfflineCheck ∨ e = .retryTestFail ∨ e = .offlineEvent) ∧
    (∀ (s : Home.HomeState) (e : Home.HomeEvent),
      e ≠ .userReconnect → s.isEmergencyMode = true →
        (Home.homeStep s e).isEmergencyMode = true) ∧
    (∀ (s : Home.HomeState) (events : List Home.HomeEvent),
      (∀ e ∈ events, e ≠ Home.HomeEvent.userReconnect) →
      s.isEmergencyMode = true → (Home.homeRun s events).isEmergencyMode = true) := by
  refine ⟨?_, ?_, ?_⟩
  · intro s e hoff hact
    rcases e with n | _ | _ | _ | _ | _ | _ | _ | _
    · by_cases hn : n > 3
      · exact Or.inl ⟨n, rfl, hn⟩
      · simp only [Home.homeStep, hn, if_false] at hact
        simp [hoff] at hact
    all_goals simp_all [Home.homeStep, Home.initialHomeState]
  · exact fun s e hne hon => homeStep_keeps_emergency s e hne hon
  · intro s events
    induction events generalizing s with
    | nil => intro _ h; simpa [Home.homeRun] using h
    | cons e rest ih =>
      intro hne hon
      have hstep : (Home.homeStep s e).isEmergencyMode = true :=
        homeStep_keeps_emergency s e (hne e (List.mem_cons_self e rest)) hon
      have := ih (s := Home.homeStep s e)
        (fun x hx => hne x (List.mem_cons_of_mem _ hx)) hstep
      simpa [Home.homeRun, List.foldl_cons] using this

/-- C5 amended witness: a concrete run — offline activation followed by
an `online` event — stays in emergency mode. -/
theorem emergency_mode_transitions_witness :
    ((Home.homeStep Home.initialHomeState .offlineEvent).isEmergencyMode = true) ∧
    (Home.homeRun (Home.homeStep Home.initialHomeState .offlineEvent)
      [.onlineEvent, .retryTestPass]).isEmergencyMode = true := by
  refine ⟨by decide, ?_⟩
  exact emergency_mode_transitions.2.2 _ [.onlineEvent, .retryTestPass]
    (by intro e he; fin_cases he <;> decide) (by decide)

/-- C6 counterexample: with a logged-in user and emergency mode active,
the profile and subjects queries are disabled, but the bookmarks query is
still enabled — its `enabled` predicate ignores the emergency flag, so a
read can still be issued to the external service, contrary to the claim
that no query is sent while emergency mode is active. -/
theorem emergency_reads_counterexample :
    Home.userProfileQueryEnabled true true = false ∧
    Home.subjectsQueryEnabled true true = false ∧
    Home.bookmarksQueryEnabled true true = true := by
  decide

/-- C6 amended: while emergency mode is active the user-profile and
subjects queries are disabled and the local cache holds the static
placeholder values installed by `forceEmergencyMode` (the placeholder
profile, the two offline subjects, and an empty bookmark list), but the
bookmarks query's enabled predicate ignores the emergency flag, so that
query remains enabled whenever a user is present. -/
theorem emergency_reads_amended (hasUser : Bool)
    (uid uname uemail : Option String) (now : String) :
    Home.userProfileQueryEnabled hasUser true = false ∧
    Home.subjectsQueryEnabled hasUser true = false ∧
    Home.bookmarksQueryEnabled hasUser true = hasUser ∧
    (Home.forceEmergencyModeCache uid uname uemail now).profile =
      Home.emergencyProfile uid uname uemail now ∧
    (Home.forceEmergencyModeCache uid uname uemail now).subjects =
      Home.emergencySubjects now ∧
    (Home.forceEmergencyModeCache uid uname uemail now).bookmarks = [] := by
  refine ⟨?_, ?_, rfl, rfl, rfl, rfl⟩ <;>
    simp [Home.userProfileQueryEnabled, Home.subjectsQueryEnabled]

/-- C2 counterexample: the claim's if-and-only-if fails for the first
revision of `isBookmarked` at the empty id. A bookmark whose `note_id` is
the empty string satisfies the claim's right-hand side at `id = ""`, but
the truthiness guard `bookmark.note_id && ...` makes the function return
false there. -/
theorem isBookmarked_empty_id_counterexample :
    ¬ (DF1.isBookmarked [⟨"b1", "u1", some "", none, "t0"⟩] "" = true ↔
        ∃ b ∈ [(⟨"b1", "u1", some "", none, "t0"⟩ : Bookmark)],
          b.note_id = some "" ∨ b.subject_id = some "") := by
  decide

/-- C2 amended: for every list of bookmarks and every NONEMPTY id, both
revisions of `isBookmarked` return true exactly when some bookmark's
`note_id` or `subject_id` equals the id (the second revision needs no
nonemptiness restriction; the first returns false at the empty id because
of its truthiness guards). -/
theorem isBookmarked_dual_key (bms : List Bookmark) (id : String)
    (hid : id ≠ "") :
    (DF1.isBookmarked bms id = true ↔
      ∃ b ∈ bms, b.note_id = some id ∨ b.subject_id = some id) ∧
    (DF2.isBookmarked bms id = true ↔
      ∃ b ∈ bms, b.note_id = some id ∨ b.subject_id = some id) := by
  constructor
  · simp only [DF1.isBookmarked, List.any_eq_true, Bool.or_eq_true,
      Bool.and_eq_true, beq_iff_eq]
    constructor
    · rintro ⟨b, hb, ⟨-, h1⟩ | ⟨-, h2⟩⟩
      · exact ⟨b, hb, Or.inr h1⟩
      · exact ⟨b, hb, Or.inl h2⟩
    · rintro ⟨b, hb, h1 | h2⟩
      · refine ⟨b, hb, Or.inr ⟨?_, h1⟩⟩
        rw [h1]
        simp [optTruthy, hid]
      · refine ⟨b, hb, Or.inl ⟨?_, h2⟩⟩
        rw [h2]
        simp [optTruthy, hid]
  · simp only [DF2.isBookmarked, List.any_eq_true, Bool.or_eq_true, beq_iff_eq]

/-- C2 amended witness: concrete instance with a nonempty id matching a
bookmark through its `subject_id` key. -/
theorem isBookmarked_dual_key_witness :
    ("s1" : String) ≠ "" ∧
    (DF1.isBookmarked [⟨"b1", "u1", none, some "s1", "t0"⟩] "s1" = true ↔
      ∃ b ∈ [(⟨"b1", "u1", none, some "s1", "t0"⟩ : Bookmark)],
        b.note_id = some "s1" ∨ b.subject_id = some "s1") :=
  ⟨by decide,
   (isBookmarked_dual_key [⟨"b1", "u1", none, some "s1", "t0"⟩] "s1"
      (by decide)).1⟩

/-- C10: whenever the user id or the item id is empty, all four bookmark
mutators — both revisions of `addBookmark` and `removeBookmark` — return
failure with the message `Missing user ID or item ID`, issue no backend
operation, and leave the backend table unchanged. -/
theorem missing_ids_no_backend_operation (db : Db) (u i : String)
    (r1 r2 : OpOutcome) (n t : String) (h : u = "" ∨ i = "") :
    DF1.addBookmark db u i r1 n t = (⟨false, "Missing user ID or item ID", []⟩, db) ∧
    DF1.removeBookmark db u i r1 r2 n t = (⟨false, "Missing user ID or item ID", []⟩, db) ∧
    DF2.addBookmark db u i r1 r2 n t = (⟨false, "Missing user ID or item ID", []⟩, db) ∧
    DF2.removeBookmark db u i r1 r2 n t = (⟨false, "Missing user ID or item ID", []⟩, db) := by
  rcases h with h | h <;> subst h <;>
    simp [DF1.addBookmark, DF1.removeBookmark, DF2.addBookmark, DF2.removeBookmark]

/-- C10 witness: concrete call with an empty item id. -/
theorem missing_ids_no_backend_operation_witness :
    (("u1" : String) = "" ∨ ("" : String) = "") ∧
    DF2.addBookmark [] "u1" "" .ok .ok "b1" "t0" =
      (⟨false, "Missing user ID or item ID", []⟩, []) :=
  ⟨Or.inr rfl,
   (missing_ids_no_backend_operation [] "u1" "" .ok .ok "b1" "t0" (Or.inr rfl)).2.2.1⟩

/-- C9: every record inserted by the first revision's `toggleBookmark`
(add branch) or `addBookmark` carries both foreign keys set to the given
item id: any row of the resulting table is either an original row or has
`note_id = subject_id = some itemId`. -/
theorem inserted_bookmark_keys_equal (db : Db) (u i : String)
    (res : OpOutcome) (flag : Bool) (n t : String) :
    (∀ r ∈ (DF1.addBookmark db u i res n t).2,
      r ∈ db ∨ (r.note_id = some i ∧ r.subject_id = some i)) ∧
    (∀ r ∈ (DF1.toggleBookmark db u i flag res n t).2,
      r ∈ db ∨ (r.note_id = some i ∧ r.subject_id = some i)) := by
  constructor
  · intro r hr
    unfold DF1.addBookmark at hr
    split at hr
    · exact Or.inl hr
    · cases res <;> simp only [applyOp] at hr
      · exact Or.inl hr
      · exact Or.inl hr
      · rcases List.mem_append.mp hr with h | h
        · exact Or.inl h
        · simp only [List.mem_singleton] at h
          subst h
          exact Or.inr ⟨rfl, rfl⟩
  · intro r hr
    unfold DF1.toggleBookmark at hr
    split at hr
    · cases res <;> simp only [applyOp] at hr
      · exact Or.inl hr
      · exact Or.inl hr
      · exact Or.inl (List.mem_of_mem_filter hr)
    · cases res <;> simp only [applyOp] at hr
      · exact Or.inl hr
      · exact Or.inl hr
      · rcases List.mem_append.mp hr with h | h
        · exact Or.inl h
        · simp only [List.mem_singleton] at h
          subst h
          exact Or.inr ⟨rfl, rfl⟩

/-- C9 witness: adding to an empty table yields exactly one row, and it
has both keys equal to the item id. -/
theorem inserted_bookmark_keys_equal_witness :
    (⟨"b1", "u1", some "s1", some "s1", "t0"⟩ : Bookmark) ∈
      (DF1.addBookmark [] "u1" "s1" .ok "b1" "t0").2 ∧
    ((⟨"b1", "u1", some "s1", some "s1", "t0"⟩ : Bookmark) ∈ ([] : Db) ∨
      ((⟨"b1", "u1", some "s1", some "s1", "t0"⟩ : Bookmark).note_id = some "s1" ∧
       (⟨"b1", "u1", some "s1", some "s1", "t0"⟩ : Bookmark).subject_id = some "s1")) :=
  ⟨by decide,
   (inserted_bookmark_keys_equal [] "u1" "s1" .ok true "b1" "t0").1
     ⟨"b1", "u1", some "s1", some "s1", "t0"⟩ (by decide)⟩

/-- C8: for nonempty ids, both second-revision mutators attempt the write
keyed by `note_id` first; only when that attempt errors or throws do they
attempt the `subject_id`-keyed write, and the reported success is then
exactly the success of that second attempt; and whenever the bookmark
lookup is served from the `subject_id`-shaped query (the `note_id` query
failed), every returned record has been normalized so that its `note_id`
equals its `subject_id`. -/
theorem dual_key_mutation_and_normalization (db : Db) (u i : String)
    (s : OpOutcome) (n t : String) (noteQ subjQ : DF2.SettledQuery)
    (hu : ¬u = "") (hi : ¬i = "") :
    ((DF2.addBookmark db u i .ok s n t).1.ops = [.insertNote u i] ∧
      (DF2.addBookmark db u i .ok s n t).1.success = true) ∧
    (∀ r, r ≠ OpOutcome.ok →
      (DF2.addBookmark db u i r s n t).1.ops =
        [.insertNote u i, .insertSubject u i] ∧
      ((DF2.addBookmark db u i r s n t).1.success = true ↔ s = .ok)) ∧
    ((DF2.removeBookmark db u i .ok s n t).1.ops = [.deleteByNote u i] ∧
      (DF2.removeBookmark db u i .ok s n t).1.success = true) ∧
    (∀ r, r ≠ OpOutcome.ok →
      (DF2.removeBookmark db u i r s n t).1.ops =
        [.deleteByNote u i, .deleteBySubject u i] ∧
      ((DF2.removeBookmark db u i r s n t).1.success = true ↔ s = .ok)) ∧
    (noteQ.isOk = false →
      ∀ b ∈ DF2.fetchUserBookmarks u noteQ subjQ, b.note_id = b.subject_id) := by
  refine ⟨?_, ?_, ?_, ?_, ?_⟩
  · simp [DF2.addBookmark, hu, hi]
  · intro r hr
    cases r with
    | ok => exact absurd rfl hr
    | err m => cases s <;> simp [DF2.addBookmark, hu, hi]
    | exc => cases s <;> simp [DF2.addBookmark, hu, hi]
  · simp [DF2.removeBookmark, hu, hi]
  · intro r hr
    cases r with
    | ok => exact absurd rfl hr
    | err m => cases s <;> simp [DF2.removeBookmark, hu, hi]
    | exc => cases s <;> simp [DF2.removeBookmark, hu, hi]
  · intro hnq b hb
    have hu2 : (u == "") = false := by simp [hu]
    simp only [DF2.fetchUserBookmarks, hu2, hnq, Bool.false_and,
      Bool.false_eq_true, if_false] at hb
    split at hb
    · rcases List.mem_map.mp hb with ⟨x, -, hx⟩
      subst hx
      rfl
    · exact absurd hb (List.not_mem_nil b)

/-- C8 witness: concrete instances — a successful note-keyed insert, a
failed note-keyed insert falling back to a successful subject-keyed
insert, and a lookup served from the subject query. -/
theorem dual_key_mutation_and_normalization_witness :
    (DF2.addBookmark [] "u1" "s1" .ok .ok "b1" "t0").1.ops =
      [.insertNote "u1" "s1"] ∧
    (DF2.addBookmark [] "u1" "s1" (.err "e") .ok "b1" "t0").1.ops =
      [.insertNote "u1" "s1", .insertSubject "u1" "s1"] ∧
    (∀ b ∈ DF2.fetchUserBookmarks "u1" DF2.SettledQuery.rejected
        (DF2.SettledQuery.fulfilled false [⟨"b1", "u1", none, some "s1", "t0"⟩]),
      b.note_id = b.subject_id) :=
  ⟨((dual_key_mutation_and_normalization [] "u1" "s1" .ok "b1" "t0"
      DF2.SettledQuery.rejected (DF2.SettledQuery.fulfilled false [])
      (by decide) (by decide)).1).1,
   ((dual_key_mutation_and_normalization [] "u1" "s1" .ok "b1" "t0"
      DF2.SettledQuery.rejected (DF2.SettledQuery.fulfilled false [])
      (by decide) (by decide)).2.1 (.err "e")
      (by intro h; exact OpOutcome.noConfusion h)).1,
   (dual_key_mutation_and_normalization [] "u1" "s1" .ok "b1" "t0"
      DF2.SettledQuery.rejected
      (DF2.SettledQuery.fulfilled false [⟨"b1", "u1", none, some "s1", "t0"⟩])
      (by decide) (by decide)).2.2.2.2 rfl⟩

/-- When every attempt the fuel allows fails, the profile retry loop
returns `none`. -/
lemma fetchProfileAux_all_fail (oracle : Nat → FetchOutcome (Option Student))
    (fuel : Nat) :
    ∀ attempt, (∀ a, attempt < a → a ≤ attempt + fuel → (oracle a).failed = true) →
      fetchProfileAux oracle attempt fuel = none := by
  induction fuel with
  | zero => intro attempt _; rfl
  | succ f ih =>
    intro attempt h
    have h1 := h (attempt + 1) (by omega) (by omega)
    simp only [fetchProfileAux]
    cases ho : oracle (attempt + 1) with
    | ok d => rw [ho] at h1; simp [FetchOutcome.failed] at h1
    | err => exact ih (attempt + 1) fun a h2 h3 => h a (by omega) (by omega)
    | exc => exact ih (attempt + 1) fun a h2 h3 => h a (by omega) (by omega)

/-- When every attempt the fuel allows fails, the subjects retry loop
returns the empty list. -/
lemma fetchSubjectsAux_all_fail (y s : Nat) (b : String) (db : List Subject)
    (oracle : Nat → FetchOutcome Unit) (fallbackOk : Bool) (fuel : Nat) :
    ∀ attempt, (∀ a, attempt < a → a ≤ attempt + fuel → (oracle a).failed = true) →
      fetchSubjectsAux y s b db oracle fallbackOk attempt fuel = [] := by
  induction fuel with
  | zero => intro attempt _; rfl
  | succ f ih =>
    intro attempt h
    have h1 := h (attempt + 1) (by omega) (by omega)
    simp only [fetchSubjectsAux]
    cases ho : oracle (attempt + 1) with
    | ok d => rw [ho] at h1; simp [FetchOutcome.failed] at h1
    | err => exact ih (attempt + 1) fun a h2 h3 => h a (by omega) (by omega)
    | exc => exact ih (attempt + 1) fun a h2 h3 => h a (by omega) (by omega)

/-- C1: when every underlying attempt fails — all `maxAttempts` profile
attempts, all `maxAttempts` subject attempts, and both shapes of the
bookmark query — the wrappers return their declared defaults:
`fetchStudentProfile` returns `null`, `fetchSubjectsForStudent` returns
the empty list (for either form of argument), and `fetchUserBookmarks`
returns the empty list; none of them propagates the error. -/
theorem fetch_failure_returns_defaults (u : String)
    (profOracle : Nat → FetchOutcome (Option Student))
    (subjOracle : Nat → FetchOutcome Unit) (db : List Subject)
    (fallbackOk : Bool) (input : String ⊕ Student)
    (noteQ subjQ : DF2.SettledQuery)
    (hp : ∀ a, 1 ≤ a → a ≤ maxAttempts → (profOracle a).failed = true)
    (hs : ∀ a, 1 ≤ a → a ≤ maxAttempts → (subjOracle a).failed = true)
    (hn : noteQ.isOk = false) (hq : subjQ.isOk = false) :
    fetchStudentProfile u profOracle = none ∧
    fetchSubjectsForStudent input profOracle db subjOracle fallbackOk = [] ∧
    DF2.fetchUserBookmarks u noteQ subjQ = [] := by
  have hprof : ∀ v : String, fetchStudentProfile v profOracle = none := by
    intro v
    unfold fetchStudentProfile
    split
    · rfl
    · exact fetchProfileAux_all_fail profOracle maxAttempts 0
        fun a ha hb => hp a ha (by omega)
  refine ⟨hprof u, ?_, ?_⟩
  · cases input with
    | inl sid => simp only [fetchSubjectsForStudent, hprof sid]
    | inr p =>
      exact fetchSubjectsAux_all_fail p.academic_year p.semester p.branch db
        subjOracle fallbackOk maxAttempts 0 fun a ha hb => hs a ha (by omega)
  · rcases Bool.eq_false_or_eq_true (u == "") with hu | hu <;>
      simp [DF2.fetchUserBookmarks, hu, hn, hq]

/-- C1 witness: concrete all-failing oracles yield the default values. -/
theorem fetch_failure_returns_defaults_witness :
    fetchStudentProfile "u1" (fun _ => .exc) = none ∧
    fetchSubjectsForStudent (.inl "u1") (fun _ => .exc) [badSubject]
      (fun _ => .err) true = [] ∧
    DF2.fetchUserBookmarks "u1" .rejected (.fulfilled true []) = [] :=
  fetch_failure_returns_defaults "u1" (fun _ => .exc) (fun _ => .err)
    [badSubject] true (.inl "u1") .rejected (.fulfilled true [])
    (fun a _ _ => rfl) (fun a _ _ => rfl) rfl rfl

/-- The profile retry loop only consults the outcomes of the attempts its
fuel allows: oracles agreeing on those attempts give equal results. -/
lemma fetchProfileAux_congr (o o2 : Nat → FetchOutcome (Option Student))
    (fuel : Nat) :
    ∀ attempt, (∀ a, attempt < a → a ≤ attempt + fuel → o a = o2 a) →
      fetchProfileAux o attempt fuel = fetchProfileAux o2 attempt fuel := by
  induction fuel with
  | zero => intro attempt _; rfl
  | succ f ih =>
    intro attempt h
    have h1 : o (attempt + 1) = o2 (attempt + 1) := h _ (by omega) (by omega)
    simp only [fetchProfileAux]
    rw [h1]
    cases ho : o2 (attempt + 1) with
    | ok d => rfl
    | err => exact ih (attempt + 1) fun a h2 h3 => h a (by omega) (by omega)
    | exc => exact ih (attempt + 1) fun a h2 h3 => h a (by omega) (by omega)

/-- The subjects retry loop only consults the outcomes of the attempts
its fuel allows. -/
lemma fetchSubjectsAux_congr (y s : Nat) (b : String) (db : List Subject)
    (o o2 : Nat → FetchOutcome Unit) (fallbackOk : Bool) (fuel : Nat) :
    ∀ attempt, (∀ a, attempt < a → a ≤ attempt + fuel → o a = o2 a) →
      fetchSubjectsAux y s b db o fallbackOk attempt fuel =
        fetchSubjectsAux y s b db o2 fallbackOk attempt fuel := by
  induction fuel with
  | zero => intro attempt _; rfl
  | succ f ih =>
    intro attempt h
    have h1 : o (attempt + 1) = o2 (attempt + 1) := h _ (by omega) (by omega)
    simp only [fetchSubjectsAux]
    rw [h1]
    cases ho : o2 (attempt + 1) with
    | ok d =>
      have hrec := ih (attempt + 1) fun a h2 h3 => h a (by omega) (by omega)
      rw [hrec]
    | err => exact ih (attempt + 1) fun a h2 h3 => h a (by omega) (by omega)
    | exc => exact ih (attempt + 1) fun a h2 h3 => h a (by omega) (by omega)

/-- C7: both resilient fetch wrappers retry within the fixed bound
`maxAttempts = 3` — their results depend only on the outcomes of attempts
1 to `maxAttempts` — and the delay inserted before each retry (a delay is
inserted exactly after failed attempts `a < maxAttempts`) grows
exponentially with the attempt number, doubling from 500ms: on the whole
retry range both wrappers' delays equal `500 * 2 ^ (a - 1)`. -/
theorem retry_backoff_and_bound :
    (∀ a, 1 ≤ a → a < maxAttempts →
      profileBackoffMs a = 500 * 2 ^ (a - 1) ∧
      subjectsRetryDelayMs a = 500 * 2 ^ (a - 1)) ∧
    (∀ a, 1 ≤ a → a + 1 < maxAttempts →
      profileBackoffMs (a + 1) = 2 * profileBackoffMs a ∧
      subjectsRetryDelayMs (a + 1) = 2 * subjectsRetryDelayMs a) ∧
    (∀ o o2 : Nat → FetchOutcome (Option Student),
      (∀ a, 1 ≤ a → a ≤ maxAttempts → o a = o2 a) →
      ∀ u, fetchStudentProfile u o = fetchStudentProfile u o2) ∧
    (∀ (so so2 : Nat → FetchOutcome Unit) (y s : Nat) (b : String)
        (db : List Subject) (fallbackOk : Bool),
      (∀ a, 1 ≤ a → a ≤ maxAttempts → so a = so2 a) →
      fetchSubjectsAux y s b db so fallbackOk 0 maxAttempts =
        fetchSubjectsAux y s b db so2 fallbackOk 0 maxAttempts) := by
  refine ⟨?_, ?_, ?_, ?_⟩
  · intro a h1 h2
    simp only [maxAttempts] at h2
    interval_cases a <;> constructor <;> decide
  · intro a h1 h2
    simp only [maxAttempts] at h2
    have ha : a = 1 := by omega
    subst ha
    constructor <;> decide
  · intro o o2 h u
    unfold fetchStudentProfile
    split
    · rfl
    · exact fetchProfileAux_congr o o2 maxAttempts 0 fun a ha hb => h a ha (by omega)
  · intro so so2 y s b db fallbackOk h
    exact fetchSubjectsAux_congr y s b db so so2 fallbackOk maxAttempts 0
      fun a ha hb => h a ha (by omega)

/-- C7 witness: concrete delays and a concrete oracle pair agreeing on
the first three attempts. -/
theorem retry_backoff_and_bound_witness :
    profileBackoffMs 1 = 500 * 2 ^ (1 - 1) ∧
    subjectsRetryDelayMs 2 = 2 * subjectsRetryDelayMs 1 ∧
    fetchStudentProfile "u1" (fun a => if a ≤ 3 then .exc else .ok none) =
      fetchStudentProfile "u1" (fun _ => .exc) :=
  ⟨(retry_backoff_and_bound.1 1 (by decide) (by decide)).1,
   (retry_backoff_and_bound.2.1 1 (by decide) (by decide)).2,
   retry_backoff_and_bound.2.2.1 _ _
     (fun a h1 h2 => by simp [maxAttempts] at h2; simp [h2]) "u1"⟩

/-- Every subject the retry loop returns comes either from the primary
query's filter or from the permissive fallback query's filter. -/
lemma fetchSubjectsAux_scope (y s : Nat) (b : String) (db : List Subject)
    (oracle : Nat → FetchOutcome Unit) (fallbackOk : Bool) (fuel : Nat) :
    ∀ attempt x, x ∈ fetchSubjectsAux y s b db oracle fallbackOk attempt fuel →
      primaryFilter y s b x = true ∨ fallbackFilter y x = true := by
  induction fuel with
  | zero => intro attempt x hx; exact absurd hx (List.not_mem_nil x)
  | succ f ih =>
    intro attempt x hx
    cases ho : oracle (attempt + 1) with
    | ok d =>
      simp only [fetchSubjectsAux, ho] at hx
      split at hx
      · split at hx <;> split at hx <;>
          first
            | exact Or.inr (List.mem_filter.mp hx).2
            | exact absurd hx (List.not_mem_nil x)
            | exact ih (attempt + 1) x hx
      · exact Or.inl (List.mem_filter.mp hx).2
    | err =>
      simp only [fetchSubjectsAux, ho] at hx
      exact ih (attempt + 1) x hx
    | exc =>
      simp only [fetchSubjectsAux, ho] at hx
      exact ih (attempt + 1) x hx

/-- C3 counterexample: with a (year 1, semester 1, CSE) profile created
through `createOrUpdateStudentProfile`, `fetchSubjectsForStudent` can
return `badSubject` — a year-1 semester-2 ECE subject not flagged common —
because when the primary query succeeds and finds no rows, the
penultimate attempt's permissive fallback query drops the semester and
branch restrictions. -/
theorem subjects_scope_counterexample :
    createOrUpdateStudentProfile "u1" csdata true "t0" = some csProfile ∧
    badSubject ∈ fetchSubjectsForStudent (.inr csProfile)
      (fun _ => .ok none) [badSubject] (fun _ => .ok ()) true ∧
    ¬(badSubject.academic_year = 1 ∧ badSubject.semester = 1 ∧
        badSubject.branch = "CSE") ∧
    badSubject.is_common = false := by
  refine ⟨by decide, ?_, by decide, by decide⟩
  decide

/-- C3 amended: for a profile with year 1, semester 1, branch CSE created
via `createOrUpdateStudentProfile`, every subject returned by
`fetchSubjectsForStudent` has `academic_year = 1` or is flagged
`is_common = true` — the primary query further restricts results to
semester 1 and branch CSE-or-common, but the permissive empty-result
fallback only restricts them to year 1 or common. -/
theorem subjects_scope_amended (userId now : String) (pdata p : Student)
    (upsertOk : Bool)
    (profOracle : Nat → FetchOutcome (Option Student))
    (db : List Subject) (oracle : Nat → FetchOutcome Unit) (fallbackOk : Bool)
    (hcreate : createOrUpdateStudentProfile userId pdata upsertOk now = some p)
    (hy : pdata.academic_year = 1) (hsem : pdata.semester = 1)
    (hbr : pdata.branch = "CSE") :
    ∀ subj ∈ fetchSubjectsForStudent (.inr p) profOracle db oracle fallbackOk,
      subj.academic_year = 1 ∨ subj.is_common = true := by
  have hp : p.academic_year = 1 := by
    unfold createOrUpdateStudentProfile at hcreate
    split at hcreate
    · exact absurd hcreate (by simp)
    · split at hcreate
      · cases Option.some.inj hcreate
        exact hy
      · exact absurd hcreate (by simp)
  intro subj hsubj
  simp only [fetchSubjectsForStudent] at hsubj
  rcases fetchSubjectsAux_scope p.academic_year p.semester p.branch db oracle
      fallbackOk maxAttempts 0 subj hsubj with h | h
  · left
    simp only [primaryFilter, Bool.and_eq_true, beq_iff_eq] at h
    rw [h.1.1, hp]
  · simp only [fallbackFilter, Bool.or_eq_true, beq_iff_eq] at h
    rcases h with h | h
    · left; rw [h, hp]
    · right; exact h

/-- C3 amended witness: the concrete counterexample run stays within the
amended scope — the fallback-returned subject has `academic_year = 1`. -/
theorem subjects_scope_amended_witness :
    badSubject.academic_year = 1 ∨ badSubject.is_common = true :=
  subjects_scope_amended "u1" "t0" csdata csProfile true (fun _ => .ok none)
    [badSubject] (fun _ => .ok ()) true (by decide) (by decide) (by decide)
    (by decide) badSubject
    (by decide)

/-- The combined-filter delete removes every row referencing the pair, so
the bookmark state afterwards is false. -/
lemma bookmarkState_deleteByOr (db : Db) (u i n t : String) :
    bookmarkState (applyOp n t db (.deleteByOr u i)) u i = false := by
  simp only [applyOp]
  rw [bookmarkState, List.any_eq_false]
  intro r hr hcon
  have hmatch : rowMatchesOr u i r = true := by
    simpa only [rowMatchesOr, Bool.or_comm] using hcon
  have hkeep := (List.mem_filter.mp hr).2
  rw [Bool.not_eq_true'] at hkeep
  exact Bool.noConfusion (hmatch.symm.trans hkeep)

/-- Inserting the row carrying both keys makes the bookmark state true. -/
lemma bookmarkState_insertBoth (db : Db) (u i n t : String) :
    bookmarkState (applyOp n t db (.insertBoth u i)) u i = true := by
  simp [applyOp, bookmarkState]

/-- Inserting the note-keyed row makes the bookmark state true. -/
lemma bookmarkState_insertNote (db : Db) (u i n t : String) :
    bookmarkState (applyOp n t db (.insertNote u i)) u i = true := by
  simp [applyOp, bookmarkState]

/-- Deleting by `note_id` twice equals deleting once. -/
lemma deleteByNote_idem (db : Db) (u i n1 t1 n2 t2 : String) :
    applyOp n2 t2 (applyOp n1 t1 db (.deleteByNote u i)) (.deleteByNote u i) =
      applyOp n1 t1 db (.deleteByNote u i) := by
  simp only [applyOp]
  induction db with
  | nil => rfl
  | cons r rest ih =>
    cases h : rowMatchesNote u i r <;> simp [List.filter_cons, h, ih]

/-- If the pair was not bookmarked, inserting the note-keyed row and then
deleting by `note_id` leaves the pair unbookmarked. -/
lemma bookmarkState_add_then_remove (db : Db) (u i n1 t1 n2 t2 : String)
    (h : bookmarkState db u i = false) :
    bookmarkState (applyOp n2 t2 (applyOp n1 t1 db (.insertNote u i))
      (.deleteByNote u i)) u i = false := by
  simp only [applyOp]
  rw [bookmarkState] at h ⊢
  rw [List.any_eq_false] at h ⊢
  intro r hr
  obtain ⟨hmem, hkeep⟩ := List.mem_filter.mp hr
  rcases List.mem_append.mp hmem with hdb | hnew
  · exact h r hdb
  · simp only [List.mem_singleton] at hnew
    subst hnew
    simp [rowMatchesNote] at hkeep

/-- C4: invoking `toggleBookmark` twice with the same (user, item) pair —
each invocation receiving the settled bookmark state as
`currentlyBookmarked` and every backend operation succeeding — leaves the
bookmark state of the pair equal to the state before the first
invocation, for both revisions of `toggleBookmark`. -/
theorem toggle_double_invocation (db : Db) (u i n1 t1 n2 t2 : String) :
    bookmarkState (DF1.doubleToggleDb db u i n1 t1 n2 t2) u i =
      bookmarkState db u i ∧
    bookmarkState (DF2.doubleToggleDb db u i n1 t1 n2 t2) u i =
      bookmarkState db u i := by
  constructor
  · unfold DF1.doubleToggleDb
    cases hb : bookmarkState db u i with
    | false =>
      have s1 : (DF1.toggleBookmark db u i false .ok n1 t1).2 =
          applyOp n1 t1 db (.insertBoth u i) := rfl
      rw [s1, bookmarkState_insertBoth]
      have s2 : (DF1.toggleBookmark (applyOp n1 t1 db (.insertBoth u i)) u i
            true .ok n2 t2).2 =
          applyOp n2 t2 (applyOp n1 t1 db (.insertBoth u i)) (.deleteByOr u i) := rfl
      rw [s2]
      exact bookmarkState_deleteByOr (applyOp n1 t1 db (.insertBoth u i)) u i n2 t2
    | true =>
      have s1 : (DF1.toggleBookmark db u i true .ok n1 t1).2 =
          applyOp n1 t1 db (.deleteByOr u i) := rfl
      rw [s1, bookmarkState_deleteByOr]
      have s2 : (DF1.toggleBookmark (applyOp n1 t1 db (.deleteByOr u i)) u i
            false .ok n2 t2).2 =
          applyOp n2 t2 (applyOp n1 t1 db (.deleteByOr u i)) (.insertBoth u i) := rfl
      rw [s2]
      exact bookmarkState_insertBoth (applyOp n1 t1 db (.deleteByOr u i)) u i n2 t2
  · unfold DF2.doubleToggleDb
    rcases Bool.eq_false_or_eq_true (u == "" || i == "") with hg | hg
    · have s1 : ∀ (d : Db) (f : Bool) (nn tt : String),
          (DF2.toggleBookmark d u i f .ok .ok nn tt).2 = d := by
        intro d f nn tt
        cases f <;>
          simp [DF2.toggleBookmark, DF2.addBookmark, DF2.removeBookmark, hg]
      rw [s1, s1]
    · cases hb : bookmarkState db u i with
      | false =>
        have s1 : (DF2.toggleBookmark db u i false .ok .ok n1 t1).2 =
            applyOp n1 t1 db (.insertNote u i) := by
          simp [DF2.toggleBookmark, DF2.addBookmark, hg]
        rw [s1, bookmarkState_insertNote]
        have s2 : (DF2.toggleBookmark (applyOp n1 t1 db (.insertNote u i)) u i
              true .ok .ok n2 t2).2 =
            applyOp n2 t2 (applyOp n1 t1 db (.insertNote u i))
              (.deleteByNote u i) := by
          simp [DF2.toggleBookmark, DF2.removeBookmark, hg]
        rw [s2]
        exact bookmarkState_add_then_remove db u i n1 t1 n2 t2 hb
      | true =>
        have s1 : (DF2.toggleBookmark db u i true .ok .ok n1 t1).2 =
            applyOp n1 t1 db (.deleteByNote u i) := by
          simp [DF2.toggleBookmark, DF2.removeBookmark, hg]
        rw [s1]
        cases hs1 : bookmarkState (applyOp n1 t1 db (.deleteByNote u i)) u i with
        | true =>
          have s2 : (DF2.toggleBookmark (applyOp n1 t1 db (.deleteByNote u i))
                u i true .ok .ok n2 t2).2 =
              applyOp n2 t2 (applyOp n1 t1 db (.deleteByNote u i))
                (.deleteByNote u i) := by
            simp [DF2.toggleBookmark, DF2.removeBookmark, hg]
          rw [s2, deleteByNote_idem]
          exact hs1
        | false =>
          have s2 : (DF2.toggleBookmark (applyOp n1 t1 db (.deleteByNote u i))
                u i false .ok .ok n2 t2).2 =
              applyOp n2 t2 (applyOp n1 t1 db (.deleteByNote u i))
                (.insertNote u i) := by
            simp [DF2.toggleBookmark, DF2.addBookmark, hg]
          rw [s2]
          exact bookmarkState_insertNote
            (applyOp n1 t1 db (.deleteByNote u i)) u i n2 t2
